import Mathlib

/-!
Shallow embedding of the ga4-diagnose-backend route handlers.

JavaScript numbers are modelled by `JsNum`: `NaN`, `Infinity`, `-Infinity`,
or a finite value carried exactly as a rational.  A metric cell returned by
the analytics backend is embedded as the `JsNum` its string value parses to
under `Number(...)`; a missing or null cell is modelled by list shortness
(the code substitutes the string "0" in that case, i.e. the finite value 0).
JavaScript objects used as string-keyed records are modelled as functions
`String → Option _` built by successive updates, so that a later assignment
to the same key overwrites an earlier one, exactly as in the source.
-/

inductive JsNum where
  | nan
  | inf
  | ninf
  | fin (q : ℚ)
deriving DecidableEq, Repr

namespace JsNum

/-- Boolean counterpart of JavaScript `Number.isFinite`. -/
def isFinite : JsNum → Bool
  | fin _ => true
  | _ => false

/-- The rational value of a finite `JsNum`, `none` for `NaN` and infinities. -/
def toRat : JsNum → Option ℚ
  | fin q => some q
  | _ => none

end JsNum

/-- Multiplication by 100 (`num * 100` in the source); `NaN` and the
infinities are absorbing, a finite value is scaled exactly. -/
def jsMul100 : JsNum → JsNum
  | .fin q => .fin (q * 100)
  | x => x

/-- JavaScript `x || 0` applied to a possibly-undefined number: `undefined`,
`NaN` and `0` are falsy and give `0`; every other value (including the
infinities) is returned unchanged. -/
def jsOrZero : Option JsNum → JsNum
  | none => .fin 0
  | some .nan => .fin 0
  | some x => x

/-- JavaScript `x < y` for a possibly-undefined left operand and a numeric
right operand: comparisons against `NaN` (and `undefined`) are false,
`-Infinity` is below every finite value and below `Infinity`. -/
def jsLt : Option JsNum → JsNum → Bool
  | some (.fin a), .fin b => decide (a < b)
  | some .ninf, .fin _ => true
  | some .ninf, .inf => true
  | some (.fin _), .inf => true
  | _, _ => false

/-- The `filter(Number.isFinite).sort((x, y) => x - y)` step of `median`:
the finite values of the input, sorted ascending. -/
def sortedVals (nums : List JsNum) : List ℚ :=
  List.insertionSort (· ≤ ·) (nums.filterMap JsNum.toRat)

/-- Embedding of `median` from `src/app/api/diagnose/route.ts` (lines 30-35):
drop non-finite values, sort ascending, return `NaN` when nothing remains,
else the middle element (odd length) or the mean of the two middle elements
(even length, `m = Math.floor(length / 2)`). -/
def median (nums : List JsNum) : JsNum :=
  if (sortedVals nums).length = 0 then .nan
  else if (sortedVals nums).length % 2 = 1 then
    .fin ((sortedVals nums).getD ((sortedVals nums).length / 2) 0)
  else
    .fin (((sortedVals nums).getD ((sortedVals nums).length / 2 - 1) 0 +
      (sortedVals nums).getD ((sortedVals nums).length / 2) 0) / 2)

/-- Dimension priority list `DIM_CANDIDATES` (route.ts line 71). -/
def DIM_CANDIDATES : List String := ["pagePath", "pageLocation", "pageTitle", "screenName"]

/-- View-metric priority list `VIEW_METRICS` (route.ts line 72). -/
def VIEW_METRICS : List String := ["views", "screenPageViews", "eventCount", "sessions"]

/-- Extra-metric list `EXTRA_METRICS` (route.ts line 73). -/
def EXTRA_METRICS : List String :=
  ["bounceRate", "engagementRate", "averageSessionDuration", "totalUsers", "sessions"]

/-- Diagnosis tag pushed by rule 1: bounce rate high (needs improvement). -/
def tagBounceHigh : String := "直帰率が高め（要改善）"

/-- Diagnosis tag pushed by rule 2: bounce rate low (healthy). -/
def tagBounceLow : String := "直帰率が低め（良好）"

/-- Diagnosis tag pushed by rule 3: engagement healthy. -/
def tagEngagement : String := "エンゲージメント良好"

/-- Diagnosis tag pushed by rule 4: low visibility (under-exposed). -/
def tagLowVisibility : String := "閲覧数が少ない（露出不足）"

/-- Fallback diagnosis tag: standard. -/
def tagStandard : String := "標準的"

/-- Note attached to the valid empty-result response (route.ts line 147). -/
def noRowsNote : String := "No rows. Check date range or data availability."

/-- Error message when the resolver finds no usable dimension or view metric
(route.ts line 116). -/
def notAvailableMsg : String := "Required dimensions/metrics not available in this property."

/-- Classifier rule 1 (route.ts lines 161-162): bounce-rate median and the
row's bounce rate are both finite numbers and `r.bounceRate >= median + 15`. -/
def rule1 (medians r : String → Option JsNum) : Bool :=
  match medians "bounceRate", r "bounceRate" with
  | some (.fin mb), some (.fin rb) => decide (mb + 15 ≤ rb)
  | _, _ => false

/-- Classifier rule 2 (route.ts lines 161, 163): bounce-rate median and the
row's bounce rate are both finite and `r.bounceRate <= Math.max(40, median - 10)`. -/
def rule2 (medians r : String → Option JsNum) : Bool :=
  match medians "bounceRate", r "bounceRate" with
  | some (.fin mb), some (.fin rb) => decide (rb ≤ max 40 (mb - 10))
  | _, _ => false

/-- Classifier rule 3 (route.ts lines 165-167): engagement-rate median and the
row's engagement rate are both finite and `r.engagementRate >= median + 10`. -/
def rule3 (medians r : String → Option JsNum) : Bool :=
  match medians "engagementRate", r "engagementRate" with
  | some (.fin me), some (.fin re) => decide (me + 10 ≤ re)
  | _, _ => false

/-- Classifier rule 4 (route.ts lines 168-170): the view metric's median is a
finite number and `r[chosenView] < medians[chosenView] * 0.5` (a JavaScript
comparison: false when the row value is `NaN` or undefined). -/
def rule4 (chosenView : String) (medians r : String → Option JsNum) : Bool :=
  match medians chosenView with
  | some (.fin mv) => jsLt (r chosenView) (.fin (mv * (1 / 2)))
  | _ => false

/-- The tags pushed by the four threshold rules, in source push order. -/
def ruleTags (chosenView : String) (medians r : String → Option JsNum) : List String :=
  (if rule1 medians r then [tagBounceHigh] else []) ++
  (if rule2 medians r then [tagBounceLow] else []) ++
  (if rule3 medians r then [tagEngagement] else []) ++
  (if rule4 chosenView medians r then [tagLowVisibility] else [])

/-- Embedding of the per-row diagnosis (route.ts lines 159-172): the tags of
the rules that fired, or the single fallback tag when none fired. -/
def classifyNotes (chosenView : String) (medians r : String → Option JsNum) : List String :=
  if ruleTags chosenView medians r = [] then [tagStandard] else ruleTags chosenView medians r

/-- One raw row of the upstream `runReport` answer: the first dimension value
(`none` models a null/absent cell) and the ordered metric value cells. -/
structure RawRow where
  dimValue : Option String
  metricValues : List JsNum
deriving Repr

/-- A normalized row `rec` (route.ts lines 132-141): the dimension value
string plus the string-keyed numeric fields. -/
structure Page where
  dimValue : String
  vals : String → Option JsNum

/-- The numeric value stored for the metric at `q = (index, name)`:
`Number(r.metricValues?.[i]?.value ?? '0')`, multiplied by 100 for the two
percentage metrics (route.ts lines 134-138). -/
def normVal (r : RawRow) (q : ℕ × String) : JsNum :=
  let num := r.metricValues.getD q.1 (.fin 0)
  if q.2 = "bounceRate" ∨ q.2 = "engagementRate" then jsMul100 num else num

/-- One step of the `metrics.forEach` loop filling `rec`: assign the field,
overwriting any earlier assignment to the same key. -/
def normStep (r : RawRow) (acc : String → Option JsNum) (q : ℕ × String) :
    String → Option JsNum :=
  fun k => if k = q.2 then some (normVal r q) else acc k

/-- Embedding of the row-normalization map (route.ts lines 132-141):
`rec[chosenDim] = dimensionValues[0].value || ''` and one numeric field per
requested metric name. -/
def normalizeRow (names : List String) (r : RawRow) : Page :=
  { dimValue := r.dimValue.getD ""
    vals := (names.enum).foldl (normStep r) (fun _ => none) }

/-- The value list fed to `median` for one metric (route.ts line 154):
`rows.map((r) => Number(r[name] || 0)).filter(Number.isFinite)`. -/
def valsFor (rows : List Page) (name : String) : List JsNum :=
  (rows.map (fun p => jsOrZero (p.vals name))).filter (fun x => x.isFinite)

/-- One step of the median loop (route.ts lines 153-156): record the median
when the filtered value list is non-empty. -/
def medStep (rows : List Page) (acc : String → Option JsNum) (name : String) :
    String → Option JsNum :=
  if (valsFor rows name).length ≠ 0 then
    fun k => if k = name then some (median (valsFor rows name)) else acc k
  else acc

/-- Embedding of the median table computation (route.ts lines 152-156). -/
def mediansOf (names : List String) (rows : List Page) : String → Option JsNum :=
  names.foldl (medStep rows) (fun _ => none)

/-- An output row of the page report: the normalized row plus its joined
diagnosis string. -/
structure DiagRow where
  dimValue : String
  vals : String → Option JsNum
  diagnosis : String

/-- The `meta` object of the page-report response (route.ts lines 144, 216). -/
structure MetaOut where
  chosenDim : String
  chosenView : String
  chosenExtra : List String
  propertyId : String
  startDate : String
  endDate : String

/-- A response of the diagnose endpoint: an error with HTTP status and
message, the 403 response carrying the allowed property-id list, or a 200
JSON body with meta, medians, pages and the optional note. -/
inductive Resp where
  | error (status : ℕ) (msg : String)
  | forbiddenResp (allowed : List String)
  | ok (meta : MetaOut) (medians : String → Option JsNum) (pages : List DiagRow)
      (note : Option String)

/-- True exactly for the 200 JSON responses. -/
def Resp.isOk : Resp → Bool
  | .ok _ _ _ _ => true
  | _ => false

/-- True exactly for the gate rejections: 401 Unauthorized and the 403
Forbidden response. -/
def Resp.isAuthFailure : Resp → Bool
  | .error 401 _ => true
  | .forbiddenResp _ => true
  | _ => false

/-- The schema capability set returned by `getMetadata`: the available
dimension and metric api names (route.ts lines 109-111). -/
structure GaMetadata where
  dims : List String
  mets : List String

/-- The process configuration read from the environment: the parsed
`CLIENTS_JSON` table and the trimmed legacy `API_KEY` (empty = unset). -/
structure EnvConfig where
  clients : List (String × List String)
  legacyKey : String

/-- Embedding of the authentication/authorization prefix of `POST`
(route.ts lines 78-104): the 401 gate over the client table or the legacy
key, the `propertyId` presence check, and the 403 enforcement of the
allowed property-id list.  `none` means the request proceeds. -/
def authCheck (cfg : EnvConfig) (headerKey propertyId : String) : Option Resp :=
  let allowed : Option (List String) :=
    if 0 < cfg.clients.length then cfg.clients.lookup headerKey else none
  if 0 < cfg.clients.length ∧ (headerKey = "" ∨ (allowed.getD []).length = 0) then
    some (.error 401 "Unauthorized")
  else if cfg.clients.length = 0 ∧ cfg.legacyKey ≠ "" ∧ headerKey ≠ cfg.legacyKey then
    some (.error 401 "Unauthorized")
  else if propertyId = "" then some (.error 400 "propertyId is required")
  else
    match allowed with
    | some l => if l.contains propertyId then none else some (.forbiddenResp l)
    | none => none

/-- Embedding of the body of `POST` after authorization (route.ts lines
109-173 and 215-219): resolve the dimension and metrics from the schema,
fail with 400 when none is available, normalize the upstream rows, return
the valid empty report on zero rows, else compute medians, classify every
row and answer 200. -/
def reportPart (meta : GaMetadata) (resRows : List RawRow)
    (propertyId startDate endDate : String) : Resp :=
  match DIM_CANDIDATES.find? (fun n => meta.dims.contains n),
        VIEW_METRICS.find? (fun n => meta.mets.contains n) with
  | some chosenDim, some chosenView =>
      let chosenExtra := EXTRA_METRICS.filter (fun n => meta.mets.contains n)
      let names := chosenView :: chosenExtra
      let rows := resRows.map (normalizeRow names)
      if rows.length = 0 then
        .ok ⟨chosenDim, chosenView, chosenExtra, propertyId, startDate, endDate⟩
          (fun _ => none) [] (some noRowsNote)
      else
        let medians := mediansOf names rows
        let pages := rows.map (fun p =>
          ⟨p.dimValue, p.vals, String.intercalate " / " (classifyNotes chosenView medians p.vals)⟩)
        .ok ⟨chosenDim, chosenView, chosenExtra, propertyId, startDate, endDate⟩
          medians pages none
  | _, _ => .error 400 notAvailableMsg

/-- Embedding of the whole `POST` handler of the page diagnostic report:
the authorization prefix, then the report body.  `headerKey` is the trimmed
`x-api-key` header (absent header = empty string), `propertyId` the body
field (absent = empty string), and `resRows` the upstream answer. -/
def POSTmodel (cfg : EnvConfig) (headerKey propertyId startDate endDate : String)
    (meta : GaMetadata) (resRows : List RawRow) : Resp :=
  match authCheck cfg headerKey propertyId with
  | some resp => resp
  | none => reportPart meta resRows propertyId startDate endDate

/-- One serialized row of the traffic-breakdown report. -/
structure TrafficRow where
  label : String
  sessions : JsNum
  totalUsers : JsNum
  engagementRate : JsNum
  bounceRate : JsNum
  averageSessionDuration : JsNum
deriving DecidableEq, Repr

/-- Embedding of the traffic-report row shaping (src/unnamed/part_003 lines
308-319): `label = r.dimensionValues?.[0]?.value ?? '(not set)'` (nullish
coalescing: only a null/absent value falls back) and the five metrics, with
the two percentage metrics scaled by 100. -/
def trafficRowOf (dimValue : Option String) (metricValues : List JsNum) : TrafficRow :=
  { label := dimValue.getD "(not set)"
    sessions := metricValues.getD 0 (.fin 0)
    totalUsers := metricValues.getD 1 (.fin 0)
    engagementRate := jsMul100 (metricValues.getD 2 (.fin 0))
    bounceRate := jsMul100 (metricValues.getD 3 (.fin 0))
    averageSessionDuration := metricValues.getD 4 (.fin 0) }

/-- Projection helper: the medians map of a 200 response. -/
def mediansOfResp : Resp → Option (String → Option JsNum)
  | .ok _ md _ _ => some md
  | _ => none

/-- Projection helper: the pages of a 200 response (empty otherwise). -/
def pagesOfResp : Resp → List DiagRow
  | .ok _ _ pgs _ => pgs
  | _ => []

/-! Helper lemmas about the embedded operations. -/

lemma foldl_normStep_apply (r : RawRow) (l : List (ℕ × String)) (acc : String → Option JsNum)
    (k : String) :
    (l.foldl (normStep r) acc) k =
      (l.reverse.find? (fun q => q.2 == k)).elim (acc k) (fun q => some (normVal r q)) := by
  induction l generalizing acc with
  | nil => simp
  | cons q t ih =>
    simp only [List.foldl_cons, List.reverse_cons, List.find?_append]
    rw [ih]
    cases ht : t.reverse.find? (fun q => q.2 == k) with
    | some q' => simp [Option.or]
    | none =>
      simp only [Option.none_or, List.find?_singleton]
      by_cases hk : k = q.2
      · subst hk; simp [normStep]
      · have : (q.2 == k) = false := by
          simp [beq_eq_false_iff_ne]
          exact fun h => hk h.symm
        simp [this, normStep, hk]

lemma normalizeRow_apply (names : List String) (r : RawRow) (k : String) :
    (normalizeRow names r).vals k =
      (names.enum.reverse.find? (fun q => q.2 == k)).elim none (fun q => some (normVal r q)) := by
  simp [normalizeRow, foldl_normStep_apply]

lemma foldl_medStep_apply (rows : List Page) (names : List String)
    (acc : String → Option JsNum) (k : String) :
    (names.foldl (medStep rows) acc) k =
      if k ∈ names ∧ valsFor rows k ≠ [] then some (median (valsFor rows k)) else acc k := by
  induction names generalizing acc with
  | nil => simp
  | cons a t ih =>
    simp only [List.foldl_cons]
    rw [ih]
    by_cases h1 : k ∈ t ∧ valsFor rows k ≠ []
    · simp [h1, h1.1, List.mem_cons_of_mem]
    · rw [if_neg h1]
      by_cases hk : k = a
      · subst hk
        by_cases hv : valsFor rows k = []
        · simp [medStep, hv, h1, List.length_eq_zero]
        · have hlen : (valsFor rows k).length ≠ 0 := by
            simpa [List.length_eq_zero] using hv
          simp [medStep, hlen, hv]
      · have : ¬(k ∈ a :: t ∧ valsFor rows k ≠ []) := by
          rintro ⟨hmem, hne⟩
          rcases List.mem_cons.mp hmem with h | h
          · exact hk h
          · exact h1 ⟨h, hne⟩
        rw [if_neg this]
        unfold medStep
        split
        · simp [hk]
        · rfl

lemma mediansOf_apply (names : List String) (rows : List Page) (k : String) :
    mediansOf names rows k =
      if k ∈ names ∧ valsFor rows k ≠ [] then some (median (valsFor rows k)) else none := by
  simp [mediansOf, foldl_medStep_apply]

lemma median_fin_of (l : List JsNum) (h1 : l ≠ [])
    (h2 : ∀ x ∈ l, x.isFinite = true) : ∃ q, median l = JsNum.fin q := by
  have hlen : (sortedVals l).length ≠ 0 := by
    cases l with
    | nil => exact absurd rfl h1
    | cons x t =>
      have hx := h2 x (List.mem_cons_self x t)
      cases x with
      | fin q =>
        simp only [sortedVals, List.filterMap_cons, JsNum.toRat, List.insertionSort,
          List.length_insertionSort]
        simp [← List.length_eq_zero, List.orderedInsert_length]
      | nan => simp [JsNum.isFinite] at hx
      | inf => simp [JsNum.isFinite] at hx
      | ninf => simp [JsNum.isFinite] at hx
  by_cases hpar : (sortedVals l).length % 2 = 1
  · exact ⟨_, by unfold median; rw [if_neg hlen, if_pos hpar]⟩
  · exact ⟨_, by unfold median; rw [if_neg hlen, if_neg hpar]⟩

lemma rule1_iff (medians r : String → Option JsNum) :
    rule1 medians r = true ↔
      ∃ mb rb : ℚ, medians "bounceRate" = some (.fin mb) ∧ r "bounceRate" = some (.fin rb) ∧
        mb + 15 ≤ rb := by
  unfold rule1
  cases hm : medians "bounceRate" with
  | none => simp
  | some x =>
    cases x with
    | fin mb =>
      cases hr : r "bounceRate" with
      | none => simp
      | some y =>
        cases y with
        | fin rb => simp
        | nan => simp
        | inf => simp
        | ninf => simp
    | nan => simp
    | inf => simp
    | ninf => simp

lemma rule2_iff (medians r : String → Option JsNum) :
    rule2 medians r = true ↔
      ∃ mb rb : ℚ, medians "bounceRate" = some (.fin mb) ∧ r "bounceRate" = some (.fin rb) ∧
        rb ≤ max 40 (mb - 10) := by
  unfold rule2
  cases hm : medians "bounceRate" with
  | none => simp
  | some x =>
    cases x with
    | fin mb =>
      cases hr : r "bounceRate" with
      | none => simp
      | some y =>
        cases y with
        | fin rb => simp
        | nan => simp
        | inf => simp
        | ninf => simp
    | nan => simp
    | inf => simp
    | ninf => simp

lemma rule3_iff (medians r : String → Option JsNum) :
    rule3 medians r = true ↔
      ∃ me re : ℚ, medians "engagementRate" = some (.fin me) ∧
        r "engagementRate" = some (.fin re) ∧ me + 10 ≤ re := by
  unfold rule3
  cases hm : medians "engagementRate" with
  | none => simp
  | some x =>
    cases x with
    | fin me =>
      cases hr : r "engagementRate" with
      | none => simp
      | some y =>
        cases y with
        | fin re => simp
        | nan => simp
        | inf => simp
        | ninf => simp
    | nan => simp
    | inf => simp
    | ninf => simp

lemma rule4_iff (chosenView : String) (medians r : String → Option JsNum) :
    rule4 chosenView medians r = true ↔
      ∃ mv : ℚ, medians chosenView = some (.fin mv) ∧
        jsLt (r chosenView) (.fin (mv * (1 / 2))) = true := by
  unfold rule4
  cases hm : medians chosenView with
  | none => simp
  | some x =>
    cases x with
    | fin mv => simp
    | nan => simp
    | inf => simp
    | ninf => simp

lemma mem_classifyNotes_bounceHigh (cv : String) (medians r : String → Option JsNum) :
    tagBounceHigh ∈ classifyNotes cv medians r ↔ rule1 medians r = true := by
  unfold classifyNotes ruleTags
  cases h1 : rule1 medians r <;> cases h2 : rule2 medians r <;> cases h3 : rule3 medians r <;>
      cases h4 : rule4 cv medians r <;>
    simp [tagBounceHigh, tagBounceLow, tagEngagement, tagLowVisibility, tagStandard]

lemma mem_classifyNotes_bounceLow (cv : String) (medians r : String → Option JsNum) :
    tagBounceLow ∈ classifyNotes cv medians r ↔ rule2 medians r = true := by
  unfold classifyNotes ruleTags
  cases h1 : rule1 medians r <;> cases h2 : rule2 medians r <;> cases h3 : rule3 medians r <;>
      cases h4 : rule4 cv medians r <;>
    simp [tagBounceHigh, tagBounceLow, tagEngagement, tagLowVisibility, tagStandard]

lemma mem_classifyNotes_engagement (cv : String) (medians r : String → Option JsNum) :
    tagEngagement ∈ classifyNotes cv medians r ↔ rule3 medians r = true := by
  unfold classifyNotes ruleTags
  cases h1 : rule1 medians r <;> cases h2 : rule2 medians r <;> cases h3 : rule3 medians r <;>
      cases h4 : rule4 cv medians r <;>
    simp [tagBounceHigh, tagBounceLow, tagEngagement, tagLowVisibility, tagStandard]

lemma mem_classifyNotes_lowVisibility (cv : String) (medians r : String → Option JsNum) :
    tagLowVisibility ∈ classifyNotes cv medians r ↔ rule4 cv medians r = true := by
  unfold classifyNotes ruleTags
  cases h1 : rule1 medians r <;> cases h2 : rule2 medians r <;> cases h3 : rule3 medians r <;>
      cases h4 : rule4 cv medians r <;>
    simp [tagBounceHigh, tagBounceLow, tagEngagement, tagLowVisibility, tagStandard]

/-! The claim theorems. -/

/-- Every outcome of the authorization prefix: it either lets the request
proceed or answers 401, the missing-propertyId 400, or 403 Forbidden. -/
lemma authCheck_shape (cfg : EnvConfig) (hk pid : String) :
    authCheck cfg hk pid = none ∨
      authCheck cfg hk pid = some (.error 401 "Unauthorized") ∨
      authCheck cfg hk pid = some (.error 400 "propertyId is required") ∨
      ∃ l, authCheck cfg hk pid = some (.forbiddenResp l) := by
  simp only [authCheck]
  repeat' split
  all_goals simp

/-- C2: `median` first discards non-finite values; if nothing remains (empty
input or all values non-finite) it returns `NaN`; otherwise it sorts the
remaining values ascending and returns the middle element for an odd count or
the arithmetic mean of the two middle elements for an even count; in
particular `median [1,2,3] = 2` and `median [1,2,3,4] = 2.5`. -/
theorem ga4_C2_median :
    (∀ l : List JsNum,
      (l.filterMap JsNum.toRat).Perm (sortedVals l) ∧
      (sortedVals l).Sorted (· ≤ ·) ∧
      ((median l = .nan) ↔ sortedVals l = []) ∧
      (sortedVals l ≠ [] →
        median l =
          if (sortedVals l).length % 2 = 1 then
            .fin ((sortedVals l).getD ((sortedVals l).length / 2) 0)
          else
            .fin (((sortedVals l).getD ((sortedVals l).length / 2 - 1) 0 +
              (sortedVals l).getD ((sortedVals l).length / 2) 0) / 2))) ∧
    median [] = .nan ∧
    median [.nan, .nan] = .nan ∧
    median [.fin 1, .fin 2, .fin 3] = .fin 2 ∧
    median [.fin 1, .fin 2, .fin 3, .fin 4] = .fin (5 / 2) := by
  refine ⟨?_, by decide, by decide, by decide, ?_⟩
  · intro l
    refine ⟨(List.perm_insertionSort _ _).symm, List.sorted_insertionSort _ _, ?_, ?_⟩
    · constructor
      · intro h
        by_contra hne
        have hlen : ¬((sortedVals l).length = 0) := by
          simpa [List.length_eq_zero] using hne
        unfold median at h
        rw [if_neg hlen] at h
        split at h <;> exact JsNum.noConfusion h
      · intro h
        simp [median, h]
    · intro hne
      have hlen : ¬((sortedVals l).length = 0) := by
        simpa [List.length_eq_zero] using hne
      unfold median
      rw [if_neg hlen]
  · simp [median, sortedVals, List.insertionSort, List.orderedInsert, List.filterMap,
      JsNum.toRat]
    norm_num

/-- Witness for C2, instantiating the conditional clause at a concrete list. -/
theorem ga4_C2_median_witness :
    sortedVals [.fin 3, .fin 1] ≠ [] ∧ median [.fin 3, .fin 1] = .fin 2 := by
  have h := (ga4_C2_median.1 [.fin 3, .fin 1]).2.2.2 (by decide)
  refine ⟨by decide, ?_⟩
  rw [h]
  norm_num [sortedVals, List.insertionSort, List.orderedInsert, List.filterMap,
    JsNum.toRat, List.getD]

/-- C4: for every row and median table the classifier attaches the bounce-high
tag iff bounce median and row bounce rate are defined and the row value is at
least median + 15; the bounce-low tag iff the row value is at most
max(40, median - 10); the engagement tag iff engagement median and row value
are defined and the row value is at least median + 10; and the low-visibility
tag iff the view-metric median is defined and the row's view-metric value is
below half the median; in particular, with a bounce-rate median of 55 a row
with bounce rate 80 gets the bounce-high tag and a row with 30 gets the
bounce-low tag. -/
theorem ga4_C4_classifier_rules (cv : String) (medians r : String → Option JsNum) :
    (tagBounceHigh ∈ classifyNotes cv medians r ↔
      ∃ mb rb : ℚ, medians "bounceRate" = some (.fin mb) ∧ r "bounceRate" = some (.fin rb) ∧
        mb + 15 ≤ rb) ∧
    (tagBounceLow ∈ classifyNotes cv medians r ↔
      ∃ mb rb : ℚ, medians "bounceRate" = some (.fin mb) ∧ r "bounceRate" = some (.fin rb) ∧
        rb ≤ max 40 (mb - 10)) ∧
    (tagEngagement ∈ classifyNotes cv medians r ↔
      ∃ me re : ℚ, medians "engagementRate" = some (.fin me) ∧
        r "engagementRate" = some (.fin re) ∧ me + 10 ≤ re) ∧
    (tagLowVisibility ∈ classifyNotes cv medians r ↔
      ∃ mv : ℚ, medians cv = some (.fin mv) ∧ jsLt (r cv) (.fin (mv * (1 / 2))) = true) ∧
    tagBounceHigh ∈ classifyNotes "views"
      (fun k => if k = "bounceRate" then some (.fin 55) else none)
      (fun k => if k = "bounceRate" then some (.fin 80) else none) ∧
    tagBounceLow ∈ classifyNotes "views"
      (fun k => if k = "bounceRate" then some (.fin 55) else none)
      (fun k => if k = "bounceRate" then some (.fin 30) else none) := by
  refine ⟨?_, ?_, ?_, ?_, ?_, ?_⟩
  · rw [mem_classifyNotes_bounceHigh, rule1_iff]
  · rw [mem_classifyNotes_bounceLow, rule2_iff]
  · rw [mem_classifyNotes_engagement, rule3_iff]
  · rw [mem_classifyNotes_lowVisibility, rule4_iff]
  · simp [classifyNotes, ruleTags, rule1, rule2, rule3, rule4, jsLt]
    norm_num
  · simp [classifyNotes, ruleTags, rule1, rule2, rule3, rule4, jsLt]
    norm_num

/-- C5: `classifyNotes` always returns a non-empty tag list, and when none of
the four threshold rules fires the list is exactly the single fallback tag. -/
theorem ga4_C5_default_tag (cv : String) (medians r : String → Option JsNum) :
    classifyNotes cv medians r ≠ [] ∧
      (rule1 medians r = false → rule2 medians r = false → rule3 medians r = false →
        rule4 cv medians r = false → classifyNotes cv medians r = [tagStandard]) := by
  constructor
  · by_cases h : ruleTags cv medians r = [] <;> simp [classifyNotes, h]
  · intro h1 h2 h3 h4
    simp [classifyNotes, ruleTags, h1, h2, h3, h4]

/-- Witness for C5 at a row and median table where no rule fires. -/
theorem ga4_C5_default_tag_witness :
    rule1 (fun _ => none) (fun _ => none) = false ∧
      rule2 (fun _ => none) (fun _ => none) = false ∧
      rule3 (fun _ => none) (fun _ => none) = false ∧
      rule4 "views" (fun _ => none) (fun _ => none) = false ∧
      classifyNotes "views" (fun _ => none) (fun _ => none) = [tagStandard] :=
  ⟨rfl, rfl, rfl, rfl,
    (ga4_C5_default_tag "views" (fun _ => none) (fun _ => none)).2 rfl rfl rfl rfl⟩

/-- Counterexample to C6 as stated: with a bounce-rate median of 20 and a row
bounce rate of 36, both 36 ≥ 20 + 15 and 36 ≤ max(40, 20 - 10) = 40 hold, so
the classifier attaches the bounce-high and the bounce-low tag to the same
row. -/
theorem ga4_C6_counterexample :
    tagBounceHigh ∈ classifyNotes "views"
        (fun k => if k = "bounceRate" then some (.fin 20) else none)
        (fun k => if k = "bounceRate" then some (.fin 36) else none) ∧
      tagBounceLow ∈ classifyNotes "views"
        (fun k => if k = "bounceRate" then some (.fin 20) else none)
        (fun k => if k = "bounceRate" then some (.fin 36) else none) := by
  constructor <;>
  · simp [classifyNotes, ruleTags, rule1, rule2, rule3, rule4, jsLt]
    norm_num

/-- C6 (amended): the two bounce tags are mutually exclusive whenever the
bounce-rate median exceeds 25; for a median of at most 25 a row between
median + 15 and 40 receives both tags. -/
theorem ga4_C6_bounce_tags_exclusive (cv : String) (medians r : String → Option JsNum)
    (mb : ℚ) (hm : medians "bounceRate" = some (.fin mb)) (h25 : 25 < mb) :
    ¬(tagBounceHigh ∈ classifyNotes cv medians r ∧
      tagBounceLow ∈ classifyNotes cv medians r) := by
  rintro ⟨hhi, hlo⟩
  rw [mem_classifyNotes_bounceHigh, rule1_iff] at hhi
  rw [mem_classifyNotes_bounceLow, rule2_iff] at hlo
  obtain ⟨mb1, rb1, hm1, hr1, hle1⟩ := hhi
  obtain ⟨mb2, rb2, hm2, hr2, hle2⟩ := hlo
  rw [hm] at hm1 hm2
  rw [hr1] at hr2
  have e1 : mb = mb1 := JsNum.fin.inj (Option.some.inj hm1)
  have e2 : mb = mb2 := JsNum.fin.inj (Option.some.inj hm2)
  have e3 : rb1 = rb2 := JsNum.fin.inj (Option.some.inj hr2)
  subst e1 e2 e3
  have hmax : max 40 (mb - 10) < mb + 15 := max_lt (by linarith) (by linarith)
  linarith

/-- Witness for the amended C6 at a concrete median of 30. -/
theorem ga4_C6_bounce_tags_exclusive_witness :
    25 < (30 : ℚ) ∧
      ¬(tagBounceHigh ∈ classifyNotes "views"
          (fun k => if k = "bounceRate" then some (.fin 30) else none) (fun _ => none) ∧
        tagBounceLow ∈ classifyNotes "views"
          (fun k => if k = "bounceRate" then some (.fin 30) else none) (fun _ => none)) :=
  ⟨by norm_num,
    ga4_C6_bounce_tags_exclusive "views"
      (fun k => if k = "bounceRate" then some (.fin 30) else none) (fun _ => none) 30 rfl
      (by norm_num)⟩

/-- Counterexample to C8 as stated: a backend dimension value that is the
empty string is passed through unchanged by the nullish coalescing operator,
so the serialized label is the empty string, not "(not set)". -/
theorem ga4_C8_counterexample :
    (trafficRowOf (some "") []).label = "" ∧ "" ≠ "(not set)" :=
  ⟨rfl, by decide⟩

/-- C8 (amended): the traffic-report label is "(not set)" exactly when the
backend dimension value is null/missing; any present string value, including
the empty string, is used verbatim. -/
theorem ga4_C8_label (v : Option String) (ms : List JsNum) :
    (v = none → (trafficRowOf v ms).label = "(not set)") ∧
      (∀ s, v = some s → (trafficRowOf v ms).label = s) := by
  constructor
  · intro h; subst h; rfl
  · intro s h; subst h; rfl

/-- Witness for the amended C8 at a missing and at a present dimension value. -/
theorem ga4_C8_label_witness :
    (trafficRowOf none []).label = "(not set)" ∧
      (trafficRowOf (some "google / cpc") []).label = "google / cpc" :=
  ⟨(ga4_C8_label none []).1 rfl, (ga4_C8_label (some "google / cpc") []).2 "google / cpc" rfl⟩

/-- C1 (amended): with a non-empty client table, a credential that is absent
or maps to an empty list is rejected 401, and so is the empty credential even
when it is a key of the table; a non-empty credential present with a
non-empty list whose list does not contain the (non-empty) requested property
id gets 403 carrying the full allowed list; with an empty table and a
configured legacy secret the request is 401 unless the credential equals the
secret exactly, in which case no auth failure is possible for any property
id; with neither configured no auth failure is possible; and whatever the
gate rejects is the whole endpoint answer, independent of schema and
upstream rows. -/
theorem ga4_C1_auth_gate (cfg : EnvConfig) (hk pid : String) :
    (cfg.clients ≠ [] →
      (cfg.clients.lookup hk = none ∨ cfg.clients.lookup hk = some [] ∨ hk = "") →
      authCheck cfg hk pid = some (.error 401 "Unauthorized")) ∧
    (∀ l, cfg.clients ≠ [] → hk ≠ "" → cfg.clients.lookup hk = some l → l ≠ [] →
      pid ≠ "" → l.contains pid = false →
      authCheck cfg hk pid = some (.forbiddenResp l)) ∧
    (cfg.clients = [] → cfg.legacyKey ≠ "" → hk ≠ cfg.legacyKey →
      authCheck cfg hk pid = some (.error 401 "Unauthorized")) ∧
    (cfg.clients = [] → cfg.legacyKey ≠ "" → hk = cfg.legacyKey →
      ∀ resp, authCheck cfg hk pid = some resp → resp.isAuthFailure = false) ∧
    (cfg.clients = [] → cfg.legacyKey = "" →
      ∀ resp, authCheck cfg hk pid = some resp → resp.isAuthFailure = false) ∧
    (∀ resp meta rows sd ed, authCheck cfg hk pid = some resp →
      POSTmodel cfg hk pid sd ed meta rows = resp) := by
  refine ⟨?_, ?_, ?_, ?_, ?_, ?_⟩
  · intro hne hcase
    have hpos : 0 < cfg.clients.length := List.length_pos.mpr hne
    rcases hcase with h | h | h <;> simp [authCheck, hpos, h]
  · intro l hne hhk hlk hlne hpid hcont
    have hpos : 0 < cfg.clients.length := List.length_pos.mpr hne
    have hlen0 : cfg.clients.length ≠ 0 := Nat.pos_iff_ne_zero.mp hpos
    simp [authCheck, hpos, hlen0, hlk, hhk, hlne, hpid, hcont, List.length_eq_zero]
    simpa using hcont
  · intro hnil hleg hhk
    simp [authCheck, hnil, hleg, hhk]
  · intro hnil hleg hhk resp hresp
    simp [authCheck, hnil, hleg, hhk] at hresp
    rw [← hresp.2]
    rfl
  · intro hnil hleg resp hresp
    simp [authCheck, hnil, hleg] at hresp
    rw [← hresp.2]
    rfl
  · intro resp meta rows sd ed h
    simp [POSTmodel, h]

/-- Counterexample to C1 as stated: the empty credential is present in the
table and maps to a non-empty list not containing the requested property id,
yet the endpoint answers 401 Unauthorized instead of the claimed 403
Forbidden with the allowed list. -/
theorem ga4_C1_counterexample :
    POSTmodel ⟨[("", ["1001"])], ""⟩ "" "2000" "sd" "ed" ⟨[], []⟩ [] =
        .error 401 "Unauthorized" ∧
      Resp.error 401 "Unauthorized" ≠ .forbiddenResp ["1001"] :=
  ⟨rfl, fun h => Resp.noConfusion h⟩

/-- Witness for the amended C1: scenario D, a credential mapping to
["1001","1002"] requesting property "2000" is answered with Forbidden
carrying the full allowed list. -/
theorem ga4_C1_auth_gate_witness :
    authCheck ⟨[("k", ["1001", "1002"])], ""⟩ "k" "2000" =
      some (.forbiddenResp ["1001", "1002"]) :=
  (ga4_C1_auth_gate ⟨[("k", ["1001", "1002"])], ""⟩ "k" "2000").2.1 ["1001", "1002"]
    (by decide) (by decide) rfl (by decide) (by decide) rfl

/-- C3: the page-report resolver picks as dimension the first entry of the
dimension-priority list present in the schema dimensions and as view metric
the first entry of the view-metric-priority list present in the schema
metrics; when either has no present entry the request fails with the 400
NotAvailable error, whatever the upstream rows; the chosen extra metrics are
exactly the entries of the extra-metric list present in the schema metrics in
input order; and the response meta carries exactly these selections (the
selection is a function of the schema and the lists). -/
theorem ga4_C3_resolver (dims mets : List String) :
    (∀ d, DIM_CANDIDATES.find? (fun n => dims.contains n) = some d ↔
      dims.contains d = true ∧
        ∃ l₁ l₂, DIM_CANDIDATES = l₁ ++ d :: l₂ ∧ ∀ x ∈ l₁, dims.contains x = false) ∧
    (∀ v, VIEW_METRICS.find? (fun n => mets.contains n) = some v ↔
      mets.contains v = true ∧
        ∃ l₁ l₂, VIEW_METRICS = l₁ ++ v :: l₂ ∧ ∀ x ∈ l₁, mets.contains x = false) ∧
    (∀ pid sd ed rows, reportPart ⟨dims, mets⟩ rows pid sd ed = .error 400 notAvailableMsg ↔
      (DIM_CANDIDATES.find? (fun n => dims.contains n) = none ∨
        VIEW_METRICS.find? (fun n => mets.contains n) = none)) ∧
    ((EXTRA_METRICS.filter (fun n => mets.contains n)).Sublist EXTRA_METRICS ∧
      ∀ x, x ∈ EXTRA_METRICS.filter (fun n => mets.contains n) ↔
        x ∈ EXTRA_METRICS ∧ mets.contains x = true) ∧
    (∀ d v pid sd ed rows,
      DIM_CANDIDATES.find? (fun n => dims.contains n) = some d →
      VIEW_METRICS.find? (fun n => mets.contains n) = some v →
      ∃ md pgs nt, reportPart ⟨dims, mets⟩ rows pid sd ed =
        .ok ⟨d, v, EXTRA_METRICS.filter (fun n => mets.contains n), pid, sd, ed⟩ md pgs nt) := by
  refine ⟨?_, ?_, ?_, ⟨List.filter_sublist _, ?_⟩, ?_⟩
  · intro d
    rw [List.find?_eq_some]
    constructor
    · rintro ⟨hp, as, bs, heq, hall⟩
      exact ⟨hp, as, bs, heq, fun x hx => by simpa using hall x hx⟩
    · rintro ⟨hp, as, bs, heq, hall⟩
      exact ⟨hp, as, bs, heq, fun x hx => by simpa using hall x hx⟩
  · intro v
    rw [List.find?_eq_some]
    constructor
    · rintro ⟨hp, as, bs, heq, hall⟩
      exact ⟨hp, as, bs, heq, fun x hx => by simpa using hall x hx⟩
    · rintro ⟨hp, as, bs, heq, hall⟩
      exact ⟨hp, as, bs, heq, fun x hx => by simpa using hall x hx⟩
  · intro pid sd ed rows
    unfold reportPart
    cases hd : DIM_CANDIDATES.find? (fun n => dims.contains n) with
    | none => simp
    | some d =>
      cases hv : VIEW_METRICS.find? (fun n => mets.contains n) with
      | none => simp
      | some v =>
        simp only
        constructor
        · intro h
          split at h <;> exact Resp.noConfusion h
        · rintro (h | h) <;> exact Option.noConfusion h
  · intro x
    simp [List.mem_filter]
  · intro d v pid sd ed rows hd hv
    simp only [reportPart, hd, hv]
    split
    · exact ⟨_, _, _, rfl⟩
    · exact ⟨_, _, _, rfl⟩

/-- Witness for C3 on a schema containing only screenName and sessions. -/
theorem ga4_C3_resolver_witness :
    ∃ md pgs nt, reportPart ⟨["screenName"], ["sessions"]⟩ [] "1001" "28daysAgo" "yesterday" =
      .ok ⟨"screenName", "sessions", ["sessions"], "1001", "28daysAgo", "yesterday"⟩
        md pgs nt :=
  (ga4_C3_resolver ["screenName"] ["sessions"]).2.2.2.2 "screenName" "sessions" "1001"
    "28daysAgo" "yesterday" [] rfl rfl

/-- C7: the percentage metrics bounceRate and engagementRate are multiplied
by 100 exactly once during row normalization (all other metrics are stored
unscaled), and medians are computed after normalization, so a raw backend
bounce-rate of 0.0423 appears both in the median table and in the output row
as exactly 4.23. -/
theorem ga4_C7_percent_rescale :
    (∀ q : ℚ, jsMul100 (.fin q) = .fin (q * 100)) ∧
    (∀ (names : List String) (r : RawRow) (k : String) (p : ℕ × String),
      (k = "bounceRate" ∨ k = "engagementRate") →
      names.enum.reverse.find? (fun q => q.2 == k) = some p →
      (normalizeRow names r).vals k =
        some (jsMul100 (r.metricValues.getD p.1 (.fin 0)))) ∧
    (∀ (names : List String) (r : RawRow) (k : String) (p : ℕ × String),
      k ≠ "bounceRate" → k ≠ "engagementRate" →
      names.enum.reverse.find? (fun q => q.2 == k) = some p →
      (normalizeRow names r).vals k = some (r.metricValues.getD p.1 (.fin 0))) ∧
    (mediansOfResp (reportPart ⟨["pagePath"], ["views", "bounceRate"]⟩
      [⟨some "/a", [.fin 10, .fin (423 / 10000)]⟩] "1" "sd" "ed")).map
        (fun md => md "bounceRate") = some (some (.fin (423 / 100))) ∧
    (pagesOfResp (reportPart ⟨["pagePath"], ["views", "bounceRate"]⟩
      [⟨some "/a", [.fin 10, .fin (423 / 10000)]⟩] "1" "sd" "ed")).map
        (fun p => p.vals "bounceRate") = [some (.fin (423 / 100))] := by
  refine ⟨fun q => rfl, ?_, ?_, ?_, ?_⟩
  · intro names r k p hk hfind
    rw [normalizeRow_apply, hfind]
    have hpk : p.2 = k := by simpa using List.find?_some hfind
    rcases hk with hk | hk <;>
      simp [Option.elim, normVal, hpk, hk]
  · intro names r k p hk1 hk2 hfind
    rw [normalizeRow_apply, hfind]
    have hpk : p.2 = k := by simpa using List.find?_some hfind
    simp [Option.elim, normVal, hpk, hk1, hk2]
  · simp [reportPart, mediansOfResp, DIM_CANDIDATES, VIEW_METRICS, EXTRA_METRICS,
      normalizeRow, normStep, normVal, jsMul100, mediansOf, medStep, valsFor, jsOrZero,
      JsNum.isFinite, median, sortedVals, List.insertionSort, List.orderedInsert,
      List.filterMap, JsNum.toRat, List.enum, List.enumFrom]
    norm_num
  · simp [reportPart, pagesOfResp, DIM_CANDIDATES, VIEW_METRICS, EXTRA_METRICS,
      normalizeRow, normStep, normVal, jsMul100, mediansOf, medStep, valsFor, jsOrZero,
      JsNum.isFinite, median, sortedVals, List.insertionSort, List.orderedInsert,
      List.filterMap, JsNum.toRat, List.enum, List.enumFrom]
    norm_num

/-- Witness for C7, instantiating the normalization clause at a concrete
row. -/
theorem ga4_C7_percent_rescale_witness :
    (normalizeRow ["views", "bounceRate"] ⟨some "", [.fin 1, .fin 2]⟩).vals "bounceRate" =
      some (jsMul100 ((⟨some "", [.fin 1, .fin 2]⟩ : RawRow).metricValues.getD 1 (.fin 0))) :=
  ga4_C7_percent_rescale.2.1 ["views", "bounceRate"] ⟨some "", [.fin 1, .fin 2]⟩
    "bounceRate" (1, "bounceRate") (Or.inl rfl) (by decide)

/-- C9: when the upstream result has zero rows and the request is not
rejected by the gate or validation, the page diagnostic report is a success
response carrying an empty medians map, an empty pages list and the
explanatory no-rows note (a constructor distinct from every error
response). -/
theorem ga4_C9_empty_result (cfg : EnvConfig) (hk pid sd ed : String) (meta : GaMetadata)
    (h : (POSTmodel cfg hk pid sd ed meta []).isOk = true) :
    ∃ m0, POSTmodel cfg hk pid sd ed meta [] =
      .ok m0 (fun _ => none) [] (some noRowsNote) := by
  rcases authCheck_shape cfg hk pid with hA | hA | hA | ⟨l, hA⟩ <;>
    simp only [POSTmodel, hA] at h ⊢
  case inl =>
    unfold reportPart at h ⊢
    cases hd : DIM_CANDIDATES.find? (fun n => meta.dims.contains n) with
    | none => rw [hd] at h; exact absurd h (by simp [Resp.isOk])
    | some d =>
      cases hv : VIEW_METRICS.find? (fun n => meta.mets.contains n) with
      | none => rw [hd, hv] at h; exact absurd h (by simp [Resp.isOk])
      | some v =>
        exact ⟨_, rfl⟩
  all_goals exact absurd h (by simp [Resp.isOk])

/-- Witness for C9 on a concrete passing request with zero upstream rows. -/
theorem ga4_C9_empty_result_witness :
    ∃ m0, POSTmodel ⟨[], ""⟩ "" "1001" "28daysAgo" "yesterday"
        ⟨["pagePath"], ["views"]⟩ [] =
      .ok m0 (fun _ => none) [] (some noRowsNote) :=
  ga4_C9_empty_result ⟨[], ""⟩ "" "1001" "28daysAgo" "yesterday"
    ⟨["pagePath"], ["views"]⟩ rfl

/-- Counterexample to C10 as stated: a single row whose only metric value is
Infinity survives the `|| 0` coercion (Infinity is truthy) but is removed by
the finiteness filter, so the medians map of a non-empty row set has no entry
for the chosen view metric. -/
theorem ga4_C10_counterexample :
    (mediansOfResp (reportPart ⟨["pagePath"], ["eventCount"]⟩ [⟨some "/a", [.inf]⟩]
        "1" "sd" "ed")).map (fun md => md "eventCount") = some none ∧
      (pagesOfResp (reportPart ⟨["pagePath"], ["eventCount"]⟩ [⟨some "/a", [.inf]⟩]
        "1" "sd" "ed")).length = 1 :=
  ⟨rfl, rfl⟩

/-- C10 (amended): the `|| 0` coercion turns missing values and NaN into 0,
and the medians map contains a finite entry for every chosen metric name for
which at least one row's coerced value is finite; only a metric whose value
is an infinity in every row is left without a median entry. -/
theorem ga4_C10_medians_defined (names : List String) (rows : List Page) (name : String) :
    jsOrZero none = .fin 0 ∧ jsOrZero (some .nan) = .fin 0 ∧
      (name ∈ names → (∃ p ∈ rows, (jsOrZero (p.vals name)).isFinite = true) →
        ∃ q, mediansOf names rows name = some (.fin q)) := by
  refine ⟨rfl, rfl, ?_⟩
  rintro hmem ⟨p, hp, hfin⟩
  have hvmem : jsOrZero (p.vals name) ∈ valsFor rows name := by
    unfold valsFor
    exact List.mem_filter.mpr ⟨List.mem_map_of_mem _ hp, hfin⟩
  have hvne : valsFor rows name ≠ [] := by
    intro h
    rw [h] at hvmem
    exact List.not_mem_nil _ hvmem
  have hfin' : ∀ x ∈ valsFor rows name, x.isFinite = true := by
    intro x hx
    exact (List.mem_filter.mp hx).2
  obtain ⟨q, hq⟩ := median_fin_of _ hvne hfin'
  rw [mediansOf_apply, if_pos ⟨hmem, hvne⟩]
  exact ⟨q, by rw [hq]⟩

/-- Witness for the amended C10 on a one-row set with a finite view value. -/
theorem ga4_C10_medians_defined_witness :
    ∃ q, mediansOf ["views"]
        [⟨"", fun k => if k = "views" then some (.fin 10) else none⟩] "views" =
      some (.fin q) :=
  (ga4_C10_medians_defined ["views"]
    [⟨"", fun k => if k = "views" then some (.fin 10) else none⟩] "views").2.2
    (by decide) ⟨⟨"", fun k => if k = "views" then some (.fin 10) else none⟩,
      List.mem_cons_self _ _, rfl⟩
